import Mathlib

/-!
Verification of the WavefrontMTL material-file decoder (WavefrontMTL.h).

Shallow embedding conventions:
  * A C character buffer / char* cursor is a List Char; the NUL terminator is
    the end of the list.  Pointer advancement is list dropping; an out-parameter
    char*& end is an extra List Char component of the result.
  * double is modelled as the rationals: every input exercised by the claims is
    a plain decimal literal, which strtod converts exactly, and none of the
    decoding logic depends on rounding.  strtod is modelled on its
    decimal/exponent grammar (the hexadecimal, infinity and nan forms are not
    modelled; no claim involves them).
  * int (via strtoll and a narrowing cast) is modelled as the integers without
    range clamping; no claim exercises values outside int range.
  * The C functions return bool and mutate out-parameters; here they return
    tuples.  The null-pointer early returns of the C code are dropped: every
    call site passes an offset into a non-null line buffer.
  * The scanning loops of the Texture / Opacity / Reflection decoders advance a
    raw pointer; they are modelled with a structural fuel argument.  Each loop
    iteration strictly shrinks the remaining input, so fuel = length + 1 never
    runs out; the fuel-exhaustion branches are unreachable.
-/

namespace mtl

/-- Character lists standing for C strings / cursors into the line buffer. -/
abbrev Chars := List Char

/-- Models C isspace in the default locale: space, tab, newline, vertical tab,
form feed, carriage return. -/
def isSpaceC (c : Char) : Bool :=
  c = ' ' || c = '\t' || c = '\n' || c = '\x0b' || c = '\x0c' || c = '\r'

/-- Models C isdigit: the characters 0 through 9. -/
def isDigitC (c : Char) : Bool := '0' ≤ c && c ≤ '9'

/-- Value of a string of decimal digits, most significant first. -/
def natOfDigits (ds : Chars) : Nat :=
  List.foldl (fun a c => a * 10 + (c.toNat - 48)) 0 ds

/-- Optional sign at the head of a number, as accepted by strtod and strtoll. -/
def readSign (l : Chars) : Bool × Chars :=
  match l with
  | '-' :: r => (true, r)
  | '+' :: r => (false, r)
  | _ => (false, l)

/-- Models strtod (decimal and exponent forms): skip whitespace, optional sign,
digits with an optional fractional part, optional exponent with at least one
digit.  Returns the value and the end pointer; if no conversion is performed it
returns 0 with the end pointer equal to the original input, exactly as strtod
stores nptr into endptr. -/
def strtodQ (l : Chars) : ℚ × Chars :=
  let t := l.dropWhile isSpaceC
  let st := readSign t
  let neg := st.1
  let t1 := st.2
  let ip := t1.takeWhile isDigitC
  let r2 := t1.dropWhile isDigitC
  let fpr : Chars × Chars :=
    match r2 with
    | '.' :: r => (r.takeWhile isDigitC, r.dropWhile isDigitC)
    | _ => ([], r2)
  let fp := fpr.1
  let r3 := fpr.2
  if ip = [] ∧ fp = [] then (0, l)
  else
    let mant : ℚ := (natOfDigits ip : ℚ) + (natOfDigits fp : ℚ) / ((10 : ℚ) ^ fp.length)
    let mant := if neg then -mant else mant
    match r3 with
    | e :: rest =>
      if e = 'e' ∨ e = 'E' then
        let est := readSign rest
        let ed := est.2.takeWhile isDigitC
        if ed = [] then (mant, r3)
        else
          let v := if est.1 then mant / (10 : ℚ) ^ natOfDigits ed
                   else mant * (10 : ℚ) ^ natOfDigits ed
          (v, est.2.dropWhile isDigitC)
      else (mant, r3)
    | [] => (mant, r3)

/-- Models strtoll in base 10 (without the LLONG range clamping, which no claim
exercises): skip whitespace, optional sign, at least one digit.  If no digits
are consumed it returns 0 with the end pointer equal to the original input. -/
def strtollZ (l : Chars) : ℤ × Chars :=
  let t := l.dropWhile isSpaceC
  let st := readSign t
  let ds := st.2.takeWhile isDigitC
  if ds = [] then (0, l)
  else
    let n : ℤ := (natOfDigits ds : ℤ)
    (if st.1 then -n else n, st.2.dropWhile isDigitC)

/-- Models strtoword: sets end to the input, returns an empty word at end of
input; otherwise skips whitespace, takes the maximal run of non-whitespace
characters as the word and sets end just past it; if that run is empty the end
pointer stays at the original input. -/
def strtoword (l : Chars) : Chars × Chars :=
  match l with
  | [] => ([], l)
  | _ =>
    let t := l.dropWhile isSpaceC
    let w := t.takeWhile (fun c => !(isSpaceC c))
    if w = [] then ([], l)
    else (w, t.dropWhile (fun c => !(isSpaceC c)))

/-- Models char_cmp(const char* a, const char* b, size_t length): walks up to
length characters; false if length is 0, if a ends before length characters, if
b ends before a does, or on any mismatch. -/
def charCmpN : Chars → Chars → Nat → Bool
  | _, _, 0 => true
  | [], _, _ + 1 => false
  | _ :: _, [], _ + 1 => false
  | a :: as, b :: bs, n + 1 => if a = b then charCmpN as bs n else false

/-- Models char_cmp with an explicit length argument. -/
def char_cmp (a b : Chars) (length : Nat) : Bool :=
  if length = 0 then false else charCmpN a b length

/-- Models char_cmp(const char* a, const std::string& b): prefix comparison of
a against the whole of b. -/
def char_cmpS (a : Chars) (b : String) : Bool :=
  char_cmp a b.toList b.length

/-- Backward scan of the trim routine: starting at index i, steps left while
the character there is whitespace, stopping at index 0 (e == s) regardless. -/
def trimBackIdx (p : Chars) : Nat → Nat
  | 0 => 0
  | i + 1 => if isSpaceC (p.getD (i + 1) ' ') then trimBackIdx p i else i + 1

/-- Models trim(char*): skip leading whitespace; put e at the terminator, step
it back once if it moved, scan back over trailing whitespace without passing s,
step forward once unless e ended at s, and write the terminator there.  The
returned view is the prefix up to the written terminator.  (Note the e == s
case writes the terminator over the first character: content of length exactly
one is destroyed.) -/
def trim (l : Chars) : Chars :=
  let p := l.dropWhile isSpaceC
  if p.length = 0 then p
  else
    let e1 := p.length - 1
    let e2 := trimBackIdx p e1
    let e3 := if e2 ≠ 0 then e2 + 1 else e2
    p.take e3

/-!
Data model.  Every struct derives from Parse in the C++ source, carrying one
bool provenance flag; here the flag is inlined as a field named parse.  The
process-wide Parse::active suppression flag is threaded explicitly as an
active : Bool argument of the copy-assignment operations, per the observation
that it is toggled only around the default-template copy and restored after.
-/

/-- Models Value of T: a Parse-derived wrapper of one value.  The
default constructor leaves parse false; assignment from a T value sets parse
true (the parsed() call in operator=). -/
structure Value (α : Type) where
  parse : Bool
  value : α
deriving DecidableEq

/-- Models the uvw struct: texture coordinates, Parse-derived. -/
structure uvw where
  parse : Bool
  u : ℚ
  v : ℚ
  w : ℚ
deriving DecidableEq

/-- Models the rgb struct: a color triple, Parse-derived. -/
structure rgb where
  parse : Bool
  r : ℚ
  g : ℚ
  b : ℚ
deriving DecidableEq

/-- Models the xyz struct: a CIE tristimulus triple, Parse-derived. -/
structure xyz where
  parse : Bool
  x : ℚ
  y : ℚ
  z : ℚ
deriving DecidableEq

/-- Models the Model struct: base and gain of the -mm texture option. -/
structure Model where
  parse : Bool
  base : ℤ
  gain : ℤ
deriving DecidableEq

/-- Models the Opacity struct: dissolve factor and halo flag. -/
structure Opacity where
  parse : Bool
  d : ℚ
  halo : Bool
deriving DecidableEq

/-- Models the Spectral struct: spectral curve file and scaling factor. -/
structure Spectral where
  parse : Bool
  file : Chars
  factor : ℚ
deriving DecidableEq

/-- Models the Color struct: rgb, CIE xyz and spectral alternatives. -/
structure Color where
  parse : Bool
  color : rgb
  color_space : xyz
  spectral : Spectral
deriving DecidableEq

/-- Models the Texture struct: filename plus the option-flag fields. -/
structure Texture where
  parse : Bool
  file : Value Chars
  blendu : Value Bool
  blendv : Value Bool
  clamp : Value Bool
  cc : Value Bool
  bm : Value ℚ
  boost : Value ℚ
  texres : Value ℚ
  mm : Model
  o : uvw
  s : uvw
  t : uvw
  imfchan : Value Char
deriving DecidableEq

/-- Models the Reflection struct: a sphere map and six cube-face maps. -/
structure Reflection where
  parse : Bool
  sphere : Texture
  cube_top : Texture
  cube_bottom : Texture
  cube_front : Texture
  cube_back : Texture
  cube_left : Texture
  cube_right : Texture
deriving DecidableEq

/-- Models the Material struct (not Parse-derived): one field per material
keyword. -/
structure Material where
  name : Value Chars
  Kd : Color
  Ka : Color
  Ks : Color
  Tf : Color
  Ns : Value ℚ
  map_Kd : Texture
  map_Ka : Texture
  map_Ks : Texture
  map_Ns : Texture
  map_Pr : Texture
  map_Pm : Texture
  map_Ps : Texture
  map_d : Texture
  map_bump : Texture
  map_Po : Texture
  sharpness : Value ℚ
  d : Opacity
  disp : Texture
  decal : Texture
  bump : Texture
  illum : Value ℤ
  Ni : Value ℚ
  Tr : Value ℚ
  refl : Reflection
  Ke : Color
  Pr : Value ℚ
  Pm : Value ℚ
  Ps : Value ℚ
  Pc : Value ℚ
  Pcr : Value ℚ
  aniso : Value ℚ
  anisor : Value ℚ
  map_Ke : Texture
  norm : Texture
  map_RMA : Texture
  map_ORM : Texture
deriving DecidableEq

/-! Default constructors, following the C++ member initializer lists.  The
Value(const T&) converting constructor default-initializes the Parse base, so
every seeded value starts with parse false. -/

/-- Default uvw: Parse(), u v w all 0. -/
def uvw.init : uvw := { parse := false, u := 0, v := 0, w := 0 }

/-- Default rgb: Parse(), r g b all 0. -/
def rgb.init : rgb := { parse := false, r := 0, g := 0, b := 0 }

/-- Default xyz: Parse(), x y z all 0. -/
def xyz.init : xyz := { parse := false, x := 0, y := 0, z := 0 }

/-- Default Model: Parse(), base 0, gain 1. -/
def Model.init : Model := { parse := false, base := 0, gain := 1 }

/-- Default Opacity: Parse(), d 1, halo false. -/
def Opacity.init : Opacity := { parse := false, d := 1, halo := false }

/-- Default Spectral: Parse(), empty file, factor 1. -/
def Spectral.init : Spectral := { parse := false, file := [], factor := 1 }

/-- Default Color: Parse() and default members. -/
def Color.init : Color :=
  { parse := false, color := rgb.init, color_space := xyz.init, spectral := Spectral.init }

/-- Default Texture, per the initializer list: blendu true, blendv true,
clamp false, cc false, boost 60, texres 1, imfchan the character m; the
remaining members default-construct. -/
def Texture.init : Texture :=
  { parse := false
    file := { parse := false, value := [] }
    blendu := { parse := false, value := true }
    blendv := { parse := false, value := true }
    clamp := { parse := false, value := false }
    cc := { parse := false, value := false }
    bm := { parse := false, value := 0 }
    boost := { parse := false, value := 60 }
    texres := { parse := false, value := 1 }
    mm := Model.init
    o := uvw.init
    s := uvw.init
    t := uvw.init
    imfchan := { parse := false, value := 'm' } }

/-- Default Reflection: Parse() and seven default Textures. -/
def Reflection.init : Reflection :=
  { parse := false, sphere := Texture.init, cube_top := Texture.init
    cube_bottom := Texture.init, cube_front := Texture.init
    cube_back := Texture.init, cube_left := Texture.init
    cube_right := Texture.init }

/-- Default Material, per the initializer list: Ns 0, sharpness 60, illum 0,
Ni 0, Tr 1, Pr Pm Ps Pc Pcr aniso anisor all 0; everything else
default-constructs. -/
def Material.init : Material :=
  { name := { parse := false, value := [] }
    Kd := Color.init, Ka := Color.init, Ks := Color.init, Tf := Color.init
    Ns := { parse := false, value := 0 }
    map_Kd := Texture.init, map_Ka := Texture.init, map_Ks := Texture.init
    map_Ns := Texture.init, map_Pr := Texture.init, map_Pm := Texture.init
    map_Ps := Texture.init, map_d := Texture.init, map_bump := Texture.init
    map_Po := Texture.init
    sharpness := { parse := false, value := 60 }
    d := Opacity.init
    disp := Texture.init, decal := Texture.init, bump := Texture.init
    illum := { parse := false, value := 0 }
    Ni := { parse := false, value := 0 }
    Tr := { parse := false, value := 1 }
    refl := Reflection.init
    Ke := Color.init
    Pr := { parse := false, value := 0 }
    Pm := { parse := false, value := 0 }
    Ps := { parse := false, value := 0 }
    Pc := { parse := false, value := 0 }
    Pcr := { parse := false, value := 0 }
    aniso := { parse := false, value := 0 }
    anisor := { parse := false, value := 0 }
    map_Ke := Texture.init, norm := Texture.init
    map_RMA := Texture.init, map_ORM := Texture.init }

/-!
Copy semantics.  Parse::operator=(const Parse&) sets the destination flag to
the source flag when Parse::active holds and to false otherwise; the implicit
copy-assignment operator of every Parse-derived struct assigns the Parse base
through that operator and copies the data members.  The implicit copy
CONSTRUCTOR, by contrast, performs memberwise copy-initialization and never
calls Parse::operator=, so it copies the flag verbatim; the active argument of
the copyConstruct functions below records that independence.  The result is
fully determined by the source, so the destination is not a parameter.
-/

/-- Provenance produced by Parse::operator= under suppression flag active. -/
def parseAssign (active : Bool) (srcParse : Bool) : Bool :=
  if active then srcParse else false

/-- Implicit copy-assignment of Value of T. -/
def Value.assignCopy (active : Bool) (src : Value α) : Value α :=
  { parse := parseAssign active src.parse, value := src.value }

/-- Implicit copy-assignment of uvw. -/
def uvw.assignCopy (active : Bool) (src : uvw) : uvw :=
  { parse := parseAssign active src.parse, u := src.u, v := src.v, w := src.w }

/-- Implicit copy-assignment of rgb. -/
def rgb.assignCopy (active : Bool) (src : rgb) : rgb :=
  { parse := parseAssign active src.parse, r := src.r, g := src.g, b := src.b }

/-- Implicit copy-assignment of xyz. -/
def xyz.assignCopy (active : Bool) (src : xyz) : xyz :=
  { parse := parseAssign active src.parse, x := src.x, y := src.y, z := src.z }

/-- Implicit copy-assignment of Model. -/
def Model.assignCopy (active : Bool) (src : Model) : Model :=
  { parse := parseAssign active src.parse, base := src.base, gain := src.gain }

/-- Implicit copy-assignment of Opacity. -/
def Opacity.assignCopy (active : Bool) (src : Opacity) : Opacity :=
  { parse := parseAssign active src.parse, d := src.d, halo := src.halo }

/-- Implicit copy-assignment of Spectral. -/
def Spectral.assignCopy (active : Bool) (src : Spectral) : Spectral :=
  { parse := parseAssign active src.parse, file := src.file, factor := src.factor }

/-- Implicit copy-assignment of Color: Parse base plus member assignment. -/
def Color.assignCopy (active : Bool) (src : Color) : Color :=
  { parse := parseAssign active src.parse
    color := rgb.assignCopy active src.color
    color_space := xyz.assignCopy active src.color_space
    spectral := Spectral.assignCopy active src.spectral }

/-- Implicit copy-assignment of Texture. -/
def Texture.assignCopy (active : Bool) (src : Texture) : Texture :=
  { parse := parseAssign active src.parse
    file := Value.assignCopy active src.file
    blendu := Value.assignCopy active src.blendu
    blendv := Value.assignCopy active src.blendv
    clamp := Value.assignCopy active src.clamp
    cc := Value.assignCopy active src.cc
    bm := Value.assignCopy active src.bm
    boost := Value.assignCopy active src.boost
    texres := Value.assignCopy active src.texres
    mm := Model.assignCopy active src.mm
    o := uvw.assignCopy active src.o
    s := uvw.assignCopy active src.s
    t := uvw.assignCopy active src.t
    imfchan := Value.assignCopy active src.imfchan }

/-- Implicit copy-assignment of Reflection. -/
def Reflection.assignCopy (active : Bool) (src : Reflection) : Reflection :=
  { parse := parseAssign active src.parse
    sphere := Texture.assignCopy active src.sphere
    cube_top := Texture.assignCopy active src.cube_top
    cube_bottom := Texture.assignCopy active src.cube_bottom
    cube_front := Texture.assignCopy active src.cube_front
    cube_back := Texture.assignCopy active src.cube_back
    cube_left := Texture.assignCopy active src.cube_left
    cube_right := Texture.assignCopy active src.cube_right }

/-- Implicit copy-assignment of Material: memberwise (Material itself has no
Parse base). -/
def Material.assignCopy (active : Bool) (src : Material) : Material :=
  { name := Value.assignCopy active src.name
    Kd := Color.assignCopy active src.Kd
    Ka := Color.assignCopy active src.Ka
    Ks := Color.assignCopy active src.Ks
    Tf := Color.assignCopy active src.Tf
    Ns := Value.assignCopy active src.Ns
    map_Kd := Texture.assignCopy active src.map_Kd
    map_Ka := Texture.assignCopy active src.map_Ka
    map_Ks := Texture.assignCopy active src.map_Ks
    map_Ns := Texture.assignCopy active src.map_Ns
    map_Pr := Texture.assignCopy active src.map_Pr
    map_Pm := Texture.assignCopy active src.map_Pm
    map_Ps := Texture.assignCopy active src.map_Ps
    map_d := Texture.assignCopy active src.map_d
    map_bump := Texture.assignCopy active src.map_bump
    map_Po := Texture.assignCopy active src.map_Po
    sharpness := Value.assignCopy active src.sharpness
    d := Opacity.assignCopy active src.d
    disp := Texture.assignCopy active src.disp
    decal := Texture.assignCopy active src.decal
    bump := Texture.assignCopy active src.bump
    illum := Value.assignCopy active src.illum
    Ni := Value.assignCopy active src.Ni
    Tr := Value.assignCopy active src.Tr
    refl := Reflection.assignCopy active src.refl
    Ke := Color.assignCopy active src.Ke
    Pr := Value.assignCopy active src.Pr
    Pm := Value.assignCopy active src.Pm
    Ps := Value.assignCopy active src.Ps
    Pc := Value.assignCopy active src.Pc
    Pcr := Value.assignCopy active src.Pcr
    aniso := Value.assignCopy active src.aniso
    anisor := Value.assignCopy active src.anisor
    map_Ke := Texture.assignCopy active src.map_Ke
    norm := Texture.assignCopy active src.norm
    map_RMA := Texture.assignCopy active src.map_RMA
    map_ORM := Texture.assignCopy active src.map_ORM }

/-- Implicit copy CONSTRUCTION of Value of T: memberwise copy-initialization,
which copies the parse flag verbatim; the ambient suppression flag is accepted
only to state that it is never consulted. -/
def Value.copyConstruct (_active : Bool) (src : Value α) : Value α :=
  { parse := src.parse, value := src.value }

/-- Implicit copy construction of Material: memberwise, copying every nested
parse flag verbatim; the ambient suppression flag is never consulted. -/
def Material.copyConstruct (_active : Bool) (src : Material) : Material :=
  { name := src.name, Kd := src.Kd, Ka := src.Ka, Ks := src.Ks, Tf := src.Tf
    Ns := src.Ns, map_Kd := src.map_Kd, map_Ka := src.map_Ka
    map_Ks := src.map_Ks, map_Ns := src.map_Ns, map_Pr := src.map_Pr
    map_Pm := src.map_Pm, map_Ps := src.map_Ps, map_d := src.map_d
    map_bump := src.map_bump, map_Po := src.map_Po
    sharpness := src.sharpness, d := src.d, disp := src.disp
    decal := src.decal, bump := src.bump, illum := src.illum, Ni := src.Ni
    Tr := src.Tr, refl := src.refl, Ke := src.Ke, Pr := src.Pr, Pm := src.Pm
    Ps := src.Ps, Pc := src.Pc, Pcr := src.Pcr, aniso := src.aniso
    anisor := src.anisor, map_Ke := src.map_Ke, norm := src.norm
    map_RMA := src.map_RMA, map_ORM := src.map_ORM }

/-!
Scalar decoders.  Each C overload of parse returns bool and stores the decoded
value and the end cursor through out-parameters; here they return tuples
(flag, value, end).  Apart from the null-pointer guard (dropped: all call
sites pass offsets of a non-null line buffer), the int, double and string
overloads return true unconditionally: the strtoll / strtod / strtoword
results are never checked, so a malformed token yields success with value 0
(or an empty word) and an unmoved cursor.
-/

/-- Models parse(char*, std::string&, char*&): s = strtoword(line, end);
return true. -/
def parse_word (line : Chars) : Bool × Chars × Chars :=
  (true, (strtoword line).1, (strtoword line).2)

/-- Models parse(const char*, int&, char*&): i = strtoll(line, &end, 10);
return true. -/
def parse_int (line : Chars) : Bool × ℤ × Chars :=
  (true, (strtollZ line).1, (strtollZ line).2)

/-- Models parse(const char*, double&, char*&): d = strtod(line, &end);
return true. -/
def parse_double (line : Chars) : Bool × ℚ × Chars :=
  (true, (strtodQ line).1, (strtodQ line).2)

/-- Models parse(char*, uvw&, char*&): component u, then v with a
broadcast-from-u fallback, then w with a fallback to u.  The fallback
branches test the bool of the scalar parse, which is constantly true. -/
def parse_uvw (line : Chars) (x : uvw) : Bool × uvw × Chars :=
  let x0 := { x with parse := false }
  let r1 := parse_double line
  if !r1.1 then (false, x0, line)
  else
    let x1 := { x0 with u := r1.2.1, parse := true }
    let r2 := parse_double r1.2.2
    if !r2.1 then (true, { x1 with v := x1.u, w := x1.u }, r1.2.2)
    else
      let x2 := { x1 with v := r2.2.1 }
      let r3 := parse_double r2.2.2
      let x3 := { x2 with w := r3.2.1 }
      if !r3.1 then (true, { x3 with w := x3.u }, r3.2.2)
      else (true, x3, r3.2.2)

/-- Models parse(char*, rgb&, char*&), the same shape as the uvw decoder. -/
def parse_rgb (line : Chars) (x : rgb) : Bool × rgb × Chars :=
  let x0 := { x with parse := false }
  let r1 := parse_double line
  if !r1.1 then (false, x0, line)
  else
    let x1 := { x0 with r := r1.2.1, parse := true }
    let r2 := parse_double r1.2.2
    if !r2.1 then (true, { x1 with g := x1.r, b := x1.r }, r1.2.2)
    else
      let x2 := { x1 with g := r2.2.1 }
      let r3 := parse_double r2.2.2
      let x3 := { x2 with b := r3.2.1 }
      if !r3.1 then (true, { x3 with b := x3.r }, r3.2.2)
      else (true, x3, r3.2.2)

/-- Models parse(char*, xyz&, char*&), the same shape as the uvw decoder. -/
def parse_xyz (line : Chars) (v : xyz) : Bool × xyz × Chars :=
  let x0 := { v with parse := false }
  let r1 := parse_double line
  if !r1.1 then (false, x0, line)
  else
    let x1 := { x0 with x := r1.2.1, parse := true }
    let r2 := parse_double r1.2.2
    if !r2.1 then (true, { x1 with y := x1.x, z := x1.x }, r1.2.2)
    else
      let x2 := { x1 with y := r2.2.1 }
      let r3 := parse_double r2.2.2
      let x3 := { x2 with z := r3.2.1 }
      if !r3.1 then (true, { x3 with z := x3.x }, r3.2.2)
      else (true, x3, r3.2.2)

/-- Models parse(char*, Model&, char*&): integer base then integer gain; a
failed gain read keeps the prior gain and still succeeds. -/
def parse_mm (line : Chars) (m : Model) : Bool × Model × Chars :=
  let m0 := { m with parse := false }
  let r1 := parse_int line
  if !r1.1 then (false, m0, line)
  else
    let m1 := { m0 with base := r1.2.1, parse := true }
    let r2 := parse_int r1.2.2
    if !r2.1 then (true, m1, r1.2.2)
    else (true, { m1 with gain := r2.2.1 }, r2.2.2)

/-- Models parse(char*, Spectral&, char*&): filename word then scaling
factor; a failed factor read keeps the prior factor and still succeeds. -/
def parse_spectral (line : Chars) (sp : Spectral) : Bool × Spectral × Chars :=
  let s0 := { sp with parse := false }
  let r1 := parse_word line
  if !r1.1 then (false, s0, line)
  else
    let s1 := { s0 with file := r1.2.1, parse := true }
    let r2 := parse_double r1.2.2
    if !r2.1 then (true, s1, r1.2.2)
    else (true, { s1 with factor := r2.2.1 }, r2.2.2)

/-- Models parse(char*, Color&, char*&): dispatch on a leading spectral or
xyz keyword, defaulting to the rgb decoder; the Color provenance mirrors the
chosen branch's result. -/
def parse_color (line : Chars) (c : Color) : Bool × Color × Chars :=
  if char_cmpS line "spectral " then
    let r := parse_spectral (line.drop 9) c.spectral
    (r.1, { c with spectral := r.2.1, parse := r.1 }, r.2.2)
  else if char_cmpS line "xyz " then
    let r := parse_xyz (line.drop 4) c.color_space
    (r.1, { c with color_space := r.2.1, parse := r.1 }, r.2.2)
  else
    let r := parse_rgb line c.color
    (r.1, { c with color := r.2.1, parse := r.1 }, r.2.2)

/-- Models the two-argument parse(char*, Color&), which discards the end
cursor. -/
def parse_color2 (line : Chars) (c : Color) : Color := (parse_color line c).2.1

/-- Models the parse(char*, Value of T&, char*&) template at T = double:
clear provenance, decode a scalar, then assign it (setting provenance). -/
def parse_value_double (line : Chars) (t : Value ℚ) : Bool × Value ℚ × Chars :=
  let t0 := { t with parse := false }
  let r := parse_double line
  if !r.1 then (false, t0, line)
  else (true, { t0 with value := r.2.1, parse := true }, r.2.2)

/-- The Value template decoder at T = int. -/
def parse_value_int (line : Chars) (t : Value ℤ) : Bool × Value ℤ × Chars :=
  let t0 := { t with parse := false }
  let r := parse_int line
  if !r.1 then (false, t0, line)
  else (true, { t0 with value := r.2.1, parse := true }, r.2.2)

/-- The Value template decoder at T = std::string. -/
def parse_value_word (line : Chars) (t : Value Chars) : Bool × Value Chars × Chars :=
  let t0 := { t with parse := false }
  let r := parse_word line
  if !r.1 then (false, t0, line)
  else (true, { t0 with value := r.2.1, parse := true }, r.2.2)

/-- Two-argument form of the Value double decoder (end cursor discarded). -/
def parse_value_double2 (line : Chars) (t : Value ℚ) : Value ℚ :=
  (parse_value_double line t).2.1

/-- Two-argument form of the Value int decoder (end cursor discarded). -/
def parse_value_int2 (line : Chars) (t : Value ℤ) : Value ℤ :=
  (parse_value_int line t).2.1

/-!
The Opacity decoder.  Its loop steps one character at a time looking for a
dash; after a dash it advances one position and tests for the halo keyword.
On a miss it advances once more (so the character right after an unmatched
dash is never itself examined as a dash).  The loop is modelled with fuel;
every recursive call drops at least one character, so length + 1 fuel never
runs out.
-/

/-- The fallback of the Opacity decoder when no halo flag was found: decode
the entire line as a bare dissolve factor; halo is left untouched. -/
def opacityBare (line : Chars) (o : Opacity) : Bool × Opacity × Chars :=
  let r := parse_double line
  (r.1, { o with d := r.2.1, parse := r.1 }, r.2.2)

/-- The scanning loop of parse(char*, Opacity&, char*&). -/
def opacityLoop : Nat → Chars → Chars → Opacity → Bool × Opacity × Chars
  | 0, line, _, o => opacityBare line o
  | fuel + 1, line, p, o =>
    match p with
    | [] => opacityBare line o
    | c :: rest =>
      if c = '-' then
        if char_cmpS rest "halo " then
          let r := parse_double (rest.drop 5)
          if r.1 then (true, { o with d := r.2.1, halo := true, parse := true }, r.2.2)
          else opacityLoop fuel line (rest.drop 1) o
        else opacityLoop fuel line (rest.drop 1) o
      else opacityLoop fuel line rest o

/-- Models parse(char*, Opacity&, char*&): clear provenance, scan for a halo
flag, fall back to a bare dissolve factor. -/
def parse_opacity (line : Chars) (o : Opacity) : Bool × Opacity × Chars :=
  opacityLoop (line.length + 1) line line { o with parse := false }

/-- Models the two-argument parse(char*, Opacity&). -/
def parse_opacity2 (line : Chars) (o : Opacity) : Opacity :=
  (parse_opacity line o).2.1

/-- Whether the Opacity scanning loop finds a halo flag somewhere on the
line, with the same dash-then-keyword stepping as the loop itself. -/
def opacityScanHalo : Nat → Chars → Bool
  | 0, _ => false
  | fuel + 1, p =>
    match p with
    | [] => false
    | c :: rest =>
      if c = '-' then
        if char_cmpS rest "halo " then true
        else opacityScanHalo fuel (rest.drop 1)
      else opacityScanHalo fuel rest

/-- A halo flag is found on the line by the Opacity decoder's scan. -/
def hasHaloFlag (line : Chars) : Bool := opacityScanHalo (line.length + 1) line

/-!
The Texture decoder.  The loop steps through the line one character at a
time; after a dash it tries the recognized flag keywords in source order.  A
recognized flag consumes its value through the corresponding decoder, records
the new end cursor and continues scanning from it; an unmatched dash falls
through to the one-character step (skipping the character right after the
dash).  The imfchan flag updates the end cursor even when its value word is
empty, because the word parse writes the out-parameter before the emptiness
test.  After the loop, the text at the final end cursor is trimmed and, if
non-empty, becomes the filename.
-/

/-- Models temp.find_first_of of the characters r g b m l z: true when any
character of the word is in the set. -/
def rgbmlzAny (w : Chars) : Bool :=
  w.any (fun ch => ch = 'r' || ch = 'g' || ch = 'b' || ch = 'm' || ch = 'l' || ch = 'z')

/-- The scanning loop of parse(char*, Texture&, char*&); the state is the
cursor, the texture being filled, the end cursor of the last consumed flag
value and the isParsed accumulator. -/
def textureLoop : Nat → Chars → Texture → Chars → Bool → Texture × Chars × Bool
  | 0, _, tex, endv, isP => (tex, endv, isP)
  | fuel + 1, p, tex, endv, isP =>
    match p with
    | [] => (tex, endv, isP)
    | c :: rest =>
      if c = '-' then
        if char_cmpS rest "blendu " then
          let we := strtoword (rest.drop 7)
          textureLoop fuel we.2
            (if we.1 = ("on".toList) then { tex with blendu := { parse := true, value := true } }
             else if we.1 = ("off".toList) then { tex with blendu := { parse := true, value := false } }
             else tex)
            we.2
            (if we.1 = ("on".toList) ∨ we.1 = ("off".toList) then true else isP)
        else if char_cmpS rest "blendv " then
          let we := strtoword (rest.drop 7)
          textureLoop fuel we.2
            (if we.1 = ("on".toList) then { tex with blendv := { parse := true, value := true } }
             else if we.1 = ("off".toList) then { tex with blendv := { parse := true, value := false } }
             else tex)
            we.2
            (if we.1 = ("on".toList) ∨ we.1 = ("off".toList) then true else isP)
        else if char_cmpS rest "clamp " then
          let we := strtoword (rest.drop 6)
          textureLoop fuel we.2
            (if we.1 = ("on".toList) then { tex with clamp := { parse := true, value := true } }
             else if we.1 = ("off".toList) then { tex with clamp := { parse := true, value := false } }
             else tex)
            we.2
            (if we.1 = ("on".toList) ∨ we.1 = ("off".toList) then true else isP)
        else if char_cmpS rest "boost " then
          let r := parse_value_double (rest.drop 6) tex.boost
          textureLoop fuel r.2.2 { tex with boost := r.2.1 } r.2.2 (if r.1 then true else isP)
        else if char_cmpS rest "mm " then
          let r := parse_mm (rest.drop 3) tex.mm
          textureLoop fuel r.2.2 { tex with mm := r.2.1 } r.2.2 (if r.1 then true else isP)
        else if char_cmpS rest "o " then
          let r := parse_uvw (rest.drop 2) tex.o
          textureLoop fuel r.2.2 { tex with o := r.2.1 } r.2.2 (if r.1 then true else isP)
        else if char_cmpS rest "s " then
          let r := parse_uvw (rest.drop 2) tex.s
          textureLoop fuel r.2.2 { tex with s := r.2.1 } r.2.2 (if r.1 then true else isP)
        else if char_cmpS rest "t " then
          let r := parse_uvw (rest.drop 2) tex.t
          textureLoop fuel r.2.2 { tex with t := r.2.1 } r.2.2 (if r.1 then true else isP)
        else if char_cmpS rest "bm " then
          let r := parse_value_double (rest.drop 3) tex.bm
          textureLoop fuel r.2.2 { tex with bm := r.2.1 } r.2.2 (if r.1 then true else isP)
        else if char_cmpS rest "imfchan " then
          let we := strtoword (rest.drop 8)
          if we.1 ≠ [] then
            textureLoop fuel we.2
              (if rgbmlzAny we.1 then
                 { tex with imfchan := { parse := true, value := we.1.headD 'm' } }
               else tex)
              we.2
              (if rgbmlzAny we.1 then true else isP)
          else
            textureLoop fuel (rest.drop 1) tex we.2 isP
        else
          textureLoop fuel (rest.drop 1) tex endv isP
      else
        textureLoop fuel rest tex endv isP

/-- Models parse(char*, Texture&, char*&).  The end cursor starts at the line
itself (every call site initializes it so; the null branch of the final
trim choice is therefore dead).  After the flag scan, the trimmed text at the
end cursor, if non-empty, becomes the filename and forces success. -/
def parse_texture (line : Chars) (texture : Texture) : Bool × Texture × Chars :=
  let r := textureLoop (line.length + 1) line texture line false
  let tex := r.1
  let endv := r.2.1
  let isP := r.2.2
  let p := trim endv
  if p ≠ [] then
    (true, { tex with file := { parse := true, value := p }, parse := true }, endv)
  else
    (isP, { tex with parse := isP }, endv)

/-- Models the two-argument parse(char*, Texture&). -/
def parse_texture2 (line : Chars) (t : Texture) : Texture :=
  (parse_texture line t).2.1

/-- The scanning loop of parse(char*, Reflection&): find a type flag, read
the type word, and decode the rest of the line as a Texture into the slot the
word selects by prefix comparison; an unrecognized type word fails the whole
line. -/
def reflectionLoop : Nat → Chars → Reflection → Bool × Reflection
  | 0, _, r => (false, r)
  | fuel + 1, p, r =>
    match p with
    | [] => (false, r)
    | c :: rest =>
      if c = '-' then
        if char_cmpS rest "type " then
          let we := strtoword (rest.drop 5)
          if char_cmpS we.1 "sphere" then
            let t := parse_texture we.2 r.sphere
            (t.1, { r with sphere := t.2.1, parse := t.1 })
          else if char_cmpS we.1 "cube_top" then
            let t := parse_texture we.2 r.cube_top
            (t.1, { r with cube_top := t.2.1, parse := t.1 })
          else if char_cmpS we.1 "cube_bottom" then
            let t := parse_texture we.2 r.cube_bottom
            (t.1, { r with cube_bottom := t.2.1, parse := t.1 })
          else if char_cmpS we.1 "cube_front" then
            let t := parse_texture we.2 r.cube_front
            (t.1, { r with cube_front := t.2.1, parse := t.1 })
          else if char_cmpS we.1 "cube_back" then
            let t := parse_texture we.2 r.cube_back
            (t.1, { r with cube_back := t.2.1, parse := t.1 })
          else if char_cmpS we.1 "cube_left" then
            let t := parse_texture we.2 r.cube_left
            (t.1, { r with cube_left := t.2.1, parse := t.1 })
          else if char_cmpS we.1 "cube_right" then
            let t := parse_texture we.2 r.cube_right
            (t.1, { r with cube_right := t.2.1, parse := t.1 })
          else (false, r)
        else reflectionLoop fuel (rest.drop 1) r
      else reflectionLoop fuel rest r

/-- Models parse(char*, Reflection&): clear provenance, then scan. -/
def parse_reflection (line : Chars) (r : Reflection) : Bool × Reflection :=
  reflectionLoop (line.length + 1) line { r with parse := false }

/-- The Reflection decoder's resulting struct. -/
def parse_reflection2 (line : Chars) (r : Reflection) : Reflection :=
  (parse_reflection line r).2

/-!
The Load class and its load member.  The backing FILE handling (open, fgets,
close) is outside the decoding core; load is modelled on the list of raw
lines obtained from the stream, with the stored material list (populated by
the converting constructor) as the other input.
-/

/-- The decoding-relevant state of the Load class: the material vector and
the header comment lines. -/
structure LoadState where
  mtl : List Material
  info : List Chars
deriving DecidableEq

/-- Update of the last element of the material vector, as done through the
mtl.back() reference. -/
def modifyLast (f : Material → Material) : List Material → List Material
  | [] => []
  | [m] => [f m]
  | m :: ms => m :: modifyLast f ms

/-- The keyword-dispatch chain of Load::load for the field keywords (the
comment and newmtl branches are handled in processLine); an unmatched
keyword leaves the material unchanged. -/
def fieldDispatch (line : Chars) (m : Material) : Material :=
  if char_cmpS line "Kd " then { m with Kd := parse_color2 (line.drop 3) m.Kd }
  else if char_cmpS line "Ka " then { m with Ka := parse_color2 (line.drop 3) m.Ka }
  else if char_cmpS line "Ks " then { m with Ks := parse_color2 (line.drop 3) m.Ks }
  else if char_cmpS line "Tf " then { m with Tf := parse_color2 (line.drop 3) m.Tf }
  else if char_cmpS line "Ns " then { m with Ns := parse_value_double2 (line.drop 3) m.Ns }
  else if char_cmpS line "map_Kd " then { m with map_Kd := parse_texture2 (line.drop 7) m.map_Kd }
  else if char_cmpS line "map_Ka " then { m with map_Ka := parse_texture2 (line.drop 7) m.map_Ka }
  else if char_cmpS line "map_Ks " then { m with map_Ks := parse_texture2 (line.drop 7) m.map_Ks }
  else if char_cmpS line "map_Ns " then { m with map_Ns := parse_texture2 (line.drop 7) m.map_Ns }
  else if char_cmpS line "map_Pr " then { m with map_Pr := parse_texture2 (line.drop 7) m.map_Pr }
  else if char_cmpS line "map_Pm " then { m with map_Pm := parse_texture2 (line.drop 7) m.map_Pm }
  else if char_cmpS line "map_Ps " then { m with map_Ps := parse_texture2 (line.drop 7) m.map_Ps }
  else if char_cmpS line "map_d " then { m with map_d := parse_texture2 (line.drop 6) m.map_d }
  else if char_cmpS line "map_bump " then { m with map_bump := parse_texture2 (line.drop 9) m.map_bump }
  else if char_cmpS line "map_Po " then { m with map_Po := parse_texture2 (line.drop 7) m.map_Po }
  else if char_cmpS line "sharpness " then { m with sharpness := parse_value_double2 (line.drop 10) m.sharpness }
  else if char_cmpS line "d " then { m with d := parse_opacity2 (line.drop 2) m.d }
  else if char_cmpS line "disp " then { m with disp := parse_texture2 (line.drop 5) m.disp }
  else if char_cmpS line "decal " then { m with decal := parse_texture2 (line.drop 6) m.decal }
  else if char_cmpS line "bump " then { m with bump := parse_texture2 (line.drop 5) m.bump }
  else if char_cmpS line "illum " then { m with illum := parse_value_int2 (line.drop 6) m.illum }
  else if char_cmpS line "Ni " then { m with Ni := parse_value_double2 (line.drop 3) m.Ni }
  else if char_cmpS line "Tr " then { m with Tr := parse_value_double2 (line.drop 3) m.Tr }
  else if char_cmpS line "refl " then { m with refl := parse_reflection2 (line.drop 5) m.refl }
  else if char_cmpS line "Ke " then { m with Ke := parse_color2 (line.drop 3) m.Ke }
  else if char_cmpS line "Pr " then { m with Pr := parse_value_double2 (line.drop 3) m.Pr }
  else if char_cmpS line "Pm " then { m with Pm := parse_value_double2 (line.drop 3) m.Pm }
  else if char_cmpS line "Ps " then { m with Ps := parse_value_double2 (line.drop 3) m.Ps }
  else if char_cmpS line "Pc " then { m with Pc := parse_value_double2 (line.drop 3) m.Pc }
  else if char_cmpS line "Pcr " then { m with Pcr := parse_value_double2 (line.drop 4) m.Pcr }
  else if char_cmpS line "aniso " then { m with aniso := parse_value_double2 (line.drop 6) m.aniso }
  else if char_cmpS line "anisor " then { m with anisor := parse_value_double2 (line.drop 7) m.anisor }
  else if char_cmpS line "map_Ke " then { m with map_Ke := parse_texture2 (line.drop 7) m.map_Ke }
  else if char_cmpS line "norm " then { m with norm := parse_texture2 (line.drop 5) m.norm }
  else if char_cmpS line "map_RMA " then { m with map_RMA := parse_texture2 (line.drop 8) m.map_RMA }
  else if char_cmpS line "map_ORM " then { m with map_ORM := parse_texture2 (line.drop 8) m.map_ORM }
  else m

/-- One iteration of the load loop on a raw input line: trim it, then
dispatch on a leading comment marker, the newmtl keyword, or a field keyword,
mutating the last material of the vector.  The material argument is the
default template computed once at the start of load, pushed whenever a named
material is followed by another newmtl. -/
def processLine (material : Material) (st : LoadState) (buff : Chars) : LoadState :=
  if (trim buff).head? = some '#' then
    if !(st.mtl.getLastD Material.init).name.parse then
      { st with info := st.info ++ [trim ((trim buff).drop 1)] }
    else st
  else if char_cmpS (trim buff) "newmtl" then
    { st with
      mtl := modifyLast
        (fun mb => { mb with name := { parse := true, value := trim ((trim buff).drop 7) } })
        (if (st.mtl.getLastD Material.init).name.parse then st.mtl ++ [material] else st.mtl) }
  else
    { st with mtl := modifyLast (fieldDispatch (trim buff)) st.mtl }

/-- Models Load::default_material: a fresh Material if no template is
stored, otherwise a copy of the stored front material made while the
suppression flag Parse::active is false (it is restored immediately after),
so every provenance flag of the copy is forced false. -/
def defaultMaterial (stored : List Material) : Material :=
  match stored with
  | [] => Material.init
  | m :: _ => Material.assignCopy false m

/-- The state of Load::load after clearing the vectors and seeding the
material list with the default template, before any line is decoded. -/
def seedState (stored : List Material) : LoadState :=
  { mtl := [defaultMaterial stored], info := [] }

/-- Models Load::load on the stream's lines: seed, process each line, and
report success exactly when the front material's name has provenance. -/
def load (stored : List Material) (lines : List Chars) : Bool × LoadState :=
  let st := List.foldl (processLine (defaultMaterial stored)) (seedState stored) lines
  ((st.mtl.headD Material.init).name.parse, st)

/-- Models Load::Load(const Material&): emplace_back copy-constructs the
caller's template into the material vector; the copy constructor copies
provenance verbatim whatever the ambient suppression flag is. -/
def mkLoad (active : Bool) (material : Material) : LoadState :=
  { mtl := [Material.copyConstruct active material], info := [] }

/-- A trimmed line that triggers the newmtl branch of the dispatcher: it is
not a comment and its first six characters compare equal to the newmtl
keyword. -/
def newmtlHit (line : Chars) : Bool :=
  if line.head? = some '#' then false else char_cmpS line "newmtl"

/-- Inputs used by the concrete decoding theorems below: a Texture line all of
whose flags are unrecognized. -/
def zzz_line : Chars := "-zzz 1 2 3 chrome.png".toList

/-- A Texture line carrying a texres flag with a numeric value. -/
def texres_line : Chars := "-texres 2 chrome.png".toList

/-- An imfchan value word of two characters, both in the accepted set. -/
def imfchan_rr_line : Chars := "-imfchan rr chrome.png".toList

/-- An imfchan value word whose second character only is in the accepted set. -/
def imfchan_xr_line : Chars := "-imfchan xr chrome.png".toList

/-- An imfchan value word containing no character of the accepted set. -/
def imfchan_qq_line : Chars := "-imfchan qq chrome.png".toList

/-- A template material whose Ka field carries provenance true and the color
value 1 0 0, as in the default-overlay scenario of the specification. -/
def c8_template : Material :=
  { Material.init with
    Ka := { Color.init with
            parse := true
            color := { parse := true, r := 1, g := 0, b := 0 } } }

/-- Invariant of the load loop: the material vector is never empty, the name
provenance of its front and of its back both record whether a newmtl line has
been seen, and before the first newmtl the vector still holds only the
sentinel. -/
def LoadInv (st : LoadState) (seen : Bool) : Prop :=
  st.mtl ≠ [] ∧
  (st.mtl.headD Material.init).name.parse = seen ∧
  (st.mtl.getLastD Material.init).name.parse = seen ∧
  (seen = false → ∃ m, st.mtl = [m])

/-!
Support lemmas.
-/

/-- modifyLast keeps the length of the vector. -/
theorem modifyLast_length (f : Material → Material) :
    ∀ l : List Material, (modifyLast f l).length = l.length
  | [] => rfl
  | [_] => rfl
  | _ :: b :: l => by
    simpa [modifyLast] using modifyLast_length f (b :: l)

/-- modifyLast maps the last element through the update. -/
theorem getLastD_modifyLast (f : Material → Material) :
    ∀ (l : List Material) (d : Material), l ≠ [] →
      (modifyLast f l).getLastD d = f (l.getLastD d)
  | [], _, h => absurd rfl h
  | [_], _, _ => rfl
  | a :: b :: l, d, _ => by
    show (a :: modifyLast f (b :: l)).getLastD d = f ((a :: b :: l).getLastD d)
    rw [List.getLastD_cons, List.getLastD_cons]
    exact getLastD_modifyLast f (b :: l) a (by simp)

/-- modifyLast leaves the head unchanged when the vector has at least two
entries. -/
theorem headD_modifyLast_cons₂ (f : Material → Material) (a b : Material)
    (l : List Material) (d : Material) :
    (modifyLast f (a :: b :: l)).headD d = a := rfl

/-- The field-keyword dispatcher never touches the material's name field. -/
theorem fieldDispatch_name (line : Chars) (m : Material) :
    (fieldDispatch line m).name = m.name := by
  simp only [fieldDispatch, apply_ite (Material.name), ite_self]

/-- The default template's name provenance is always cleared. -/
theorem defaultMaterial_name_parse (stored : List Material) :
    (defaultMaterial stored).name.parse = false := by
  cases stored <;> rfl

/-- No branch of the Texture flag-scanning loop writes the texres field. -/
theorem textureLoop_texres :
    ∀ (fuel : Nat) (p : Chars) (tex : Texture) (endv : Chars) (isP : Bool),
      (textureLoop fuel p tex endv isP).1.texres = tex.texres := by
  intro fuel
  induction fuel with
  | zero => intro p tex endv isP; rfl
  | succ f ih =>
    intro p tex endv isP
    cases p with
    | nil => rfl
    | cons c rest =>
      show (textureLoop (f + 1) (c :: rest) tex endv isP).1.texres = tex.texres
      rw [textureLoop]
      simp only [ih, apply_ite (fun r : Texture × Chars × Bool => r.1.texres)]
      simp [apply_ite (Texture.texres)]

/-- The Texture decoder never writes the texres field: the final filename step
touches only the file and provenance fields. -/
theorem parse_texture_texres (line : Chars) (tex : Texture) :
    (parse_texture line tex).2.1.texres = tex.texres := by
  rw [parse_texture]
  split
  · exact textureLoop_texres (line.length + 1) line tex line false
  · exact textureLoop_texres (line.length + 1) line tex line false

/-- When the halo scan fails, the Opacity loop reaches the bare fallback. -/
theorem opacityLoop_of_scan_false :
    ∀ (fuel : Nat) (p line : Chars) (o : Opacity),
      opacityScanHalo fuel p = false →
      opacityLoop fuel line p o = opacityBare line o := by
  intro fuel
  induction fuel with
  | zero => intro p line o _; rfl
  | succ f ih =>
    intro p line o h
    cases p with
    | nil => rfl
    | cons c rest =>
      rw [opacityScanHalo] at h
      rw [opacityLoop]
      by_cases hc : c = '-'
      · simp only [hc, if_true] at h ⊢
        by_cases hh : char_cmpS rest "halo " = true
        · rw [if_pos hh] at h; exact absurd h (by simp)
        · rw [if_neg hh] at h ⊢
          exact ih (rest.drop 1) line o h
      · rw [if_neg hc] at h ⊢
        exact ih rest line o h

/-- When the halo scan succeeds, the Opacity loop returns through the halo
branch: success, halo set, provenance set. -/
theorem opacityLoop_of_scan_true :
    ∀ (fuel : Nat) (p line : Chars) (o : Opacity),
      opacityScanHalo fuel p = true →
      (opacityLoop fuel line p o).1 = true ∧
      (opacityLoop fuel line p o).2.1.halo = true ∧
      (opacityLoop fuel line p o).2.1.parse = true := by
  intro fuel
  induction fuel with
  | zero => intro p line o h; exact absurd h (by simp [opacityScanHalo])
  | succ f ih =>
    intro p line o h
    cases p with
    | nil => exact absurd h (by simp [opacityScanHalo])
    | cons c rest =>
      rw [opacityScanHalo] at h
      rw [opacityLoop]
      by_cases hc : c = '-'
      · simp only [hc, if_true] at h ⊢
        by_cases hh : char_cmpS rest "halo " = true
        · rw [if_pos hh]
          rw [if_pos (by simp [parse_double])]
          exact ⟨rfl, rfl, rfl⟩
        · rw [if_neg hh] at h ⊢
          exact ih (rest.drop 1) line o h
      · rw [if_neg hc] at h ⊢
        exact ih rest line o h

/-- modifyLast of a non-empty vector is non-empty. -/
theorem modifyLast_ne_nil (f : Material → Material) (l : List Material) (h : l ≠ []) :
    modifyLast f l ≠ [] := by
  intro hnil
  have hlen := modifyLast_length f l
  rw [hnil] at hlen
  exact h (List.length_eq_zero.mp hlen.symm)

/-- The last element of a vector after emplace_back is the new element. -/
theorem getLastD_concat (l : List Material) (x d : Material) :
    (l ++ [x]).getLastD d = x := by
  simp [List.getLastD_eq_getLast?, List.getLast?_concat]

/-- Pushing then updating the last element leaves the front unchanged. -/
theorem headD_modifyLast_concat (f : Material → Material) (a : Material)
    (t : List Material) (x d : Material) :
    (modifyLast f ((a :: t) ++ [x])).headD d = a := by
  cases t <;> rfl

/-- Updating the last element after emplace_back rewrites only the new
element. -/
theorem getLastD_modifyLast_concat (f : Material → Material) (l : List Material)
    (x d : Material) : (modifyLast f (l ++ [x])).getLastD d = f x := by
  rw [getLastD_modifyLast f (l ++ [x]) d (by simp), getLastD_concat]

/-- Each load-loop iteration preserves the invariant, updating the seen flag
by whether the line triggers the newmtl branch. -/
theorem processLine_inv (material : Material) (st : LoadState) (raw : Chars) (seen : Bool)
    (h : LoadInv st seen) :
    LoadInv (processLine material st raw) (seen || newmtlHit (trim raw)) := by
  obtain ⟨hne, hfront, hback, hsing⟩ := h
  rw [processLine, newmtlHit]
  by_cases hc : (trim raw).head? = some '#'
  · rw [if_pos hc, if_pos hc, Bool.or_false]
    split
    · exact ⟨hne, hfront, hback, hsing⟩
    · exact ⟨hne, hfront, hback, hsing⟩
  · rw [if_neg hc, if_neg hc]
    by_cases hn : char_cmpS (trim raw) "newmtl" = true
    · rw [if_pos hn, hn, Bool.or_true]
      by_cases hb : (st.mtl.getLastD Material.init).name.parse = true
      · rw [if_pos hb]
        have hseen : seen = true := by rw [← hback, hb]
        obtain ⟨a, t, hat⟩ := List.exists_cons_of_ne_nil hne
        refine ⟨modifyLast_ne_nil _ _ (by simp [hat]), ?_, ?_, by simp⟩
        · show ((modifyLast _ (st.mtl ++ [material])).headD Material.init).name.parse = true
          rw [hat, headD_modifyLast_concat]
          rw [hat] at hfront
          exact hfront.trans hseen
        · show ((modifyLast _ (st.mtl ++ [material])).getLastD Material.init).name.parse = true
          rw [getLastD_modifyLast_concat]
      · have hbf : (st.mtl.getLastD Material.init).name.parse = false := by simpa using hb
        have hseen : seen = false := by rw [← hback, hbf]
        obtain ⟨m0, hm0⟩ := hsing hseen
        rw [if_neg hb, hm0]
        exact ⟨by simp [modifyLast], rfl, rfl, by simp⟩
    · have hn' : char_cmpS (trim raw) "newmtl" = false := by simpa using hn
      rw [if_neg hn, hn', Bool.or_false]
      refine ⟨modifyLast_ne_nil _ _ hne, ?_, ?_, ?_⟩
      · obtain ⟨a, t, hat⟩ := List.exists_cons_of_ne_nil hne
        show ((modifyLast (fieldDispatch (trim raw)) st.mtl).headD Material.init).name.parse = seen
        rw [hat]
        rw [hat] at hfront
        cases t with
        | nil =>
          show (fieldDispatch (trim raw) a).name.parse = seen
          rw [fieldDispatch_name]
          exact hfront
        | cons b t2 =>
          rw [headD_modifyLast_cons₂]
          exact hfront
      · show ((modifyLast (fieldDispatch (trim raw)) st.mtl).getLastD Material.init).name.parse = seen
        rw [getLastD_modifyLast (fieldDispatch (trim raw)) st.mtl Material.init hne]
        rw [fieldDispatch_name]
        exact hback
      · intro hf
        obtain ⟨m0, hm0⟩ := hsing hf
        refine ⟨fieldDispatch (trim raw) m0, ?_⟩
        show modifyLast (fieldDispatch (trim raw)) st.mtl = [fieldDispatch (trim raw) m0]
        rw [hm0]
        rfl

/-- Folding the load loop over the lines accumulates the seen flag by whether
any line triggers the newmtl branch. -/
theorem foldl_processLine_inv (material : Material) :
    ∀ (lines : List Chars) (st : LoadState) (seen : Bool), LoadInv st seen →
      LoadInv (List.foldl (processLine material) st lines)
        (seen || lines.any (fun raw => newmtlHit (trim raw)))
  | [], _, _, h => by simpa using h
  | raw :: lines, st, seen, h => by
    have h2 := foldl_processLine_inv material lines (processLine material st raw)
      (seen || newmtlHit (trim raw)) (processLine_inv material st raw seen h)
    simpa [List.any_cons, Bool.or_assoc] using h2

/-!
Claim theorems.
-/

/-- C1: the claim states that a scalar decode (integer, float or word) on a
malformed token reports failure and leaves the field, its provenance and the
cursor unchanged.  The code contradicts this: the int and double decoders
never check the strtoll and strtod results, so on the token abc they report
success, store 0 and set provenance true (only the cursor stays put).  This
theorem evaluates the decoders at that failing input. -/
theorem c1_scalar_decode_reports_success_on_malformed :
    parse_double ("abc".toList) = (true, 0, "abc".toList) ∧
    parse_int ("abc".toList) = (true, 0, "abc".toList) ∧
    parse_value_double ("abc".toList) { parse := true, value := 5 } =
      (true, { parse := true, value := 0 }, "abc".toList) ∧
    parse_value_int ("abc".toList) { parse := true, value := 7 } =
      (true, { parse := true, value := 0 }, "abc".toList) := by
  refine ⟨by decide, by decide, by decide, by decide⟩

/-- C2: the claim states the single-scalar broadcast of triples (0.5 becomes
0.5 0.5 0.5, and 0.2 0.4 becomes 0.2 0.4 0.2).  The code contradicts this:
because the scalar decode never fails, the fallback branches are unreachable
and missing components decode as 0. -/
theorem c2_triple_broadcast_is_dead_code :
    parse_rgb ("0.5".toList) rgb.init =
      (true, { parse := true, r := 0.5, g := 0, b := 0 }, []) ∧
    parse_rgb ("0.2 0.4".toList) rgb.init =
      (true, { parse := true, r := 0.2, g := 0.4, b := 0 }, []) ∧
    parse_uvw ("0.5".toList) uvw.init =
      (true, { parse := true, u := 0.5, v := 0, w := 0 }, []) := by
  refine ⟨by with_unfolding_all rfl, by with_unfolding_all rfl, by with_unfolding_all rfl⟩

/-- C3 counterexample: the claim states that decoding the Texture line with
only the unknown flag zzz yields the trailing token chrome.png as the
filename; in fact the end cursor never moves, so the filename is the whole
line. -/
theorem c3_counterexample_unknown_flags_filename :
    (parse_texture2 zzz_line Texture.init).file.value ≠ ("chrome.png".toList) := by
  decide

/-- C3 amended: on a Texture line whose flags are all unrecognized the decode
still succeeds with provenance true, but the filename is the remainder after
the last recognized flag value, which is the entire trimmed line when no flag
was recognized. -/
theorem c3_amended_unknown_flags_whole_line :
    (parse_texture2 zzz_line Texture.init).file =
      { parse := true, value := zzz_line } ∧
    (parse_texture2 zzz_line Texture.init).parse = true := by
  refine ⟨by decide, by decide⟩

/-- C4 counterexample: the claim states the Texture decoder recognizes a
texres flag storing its float with provenance true; in fact no texres branch
exists, so after decoding a line with the flag the field's provenance is
still false. -/
theorem c4_counterexample_texres_not_recognized :
    (parse_texture2 texres_line Texture.init).texres.parse = false := by
  decide

/-- C4 amended: the Texture decoder has no texres branch at all: for every
line and every starting texture, the texres field of the result equals the
field it started with; in particular the texres flag line leaves it at its
default value 1 with provenance false. -/
theorem c4_amended_texres_never_written :
    (∀ (line : Chars) (t : Texture), (parse_texture2 line t).texres = t.texres) ∧
    (parse_texture2 texres_line Texture.init).texres = { parse := false, value := 1 } := by
  constructor
  · intro line t
    exact parse_texture_texres line t
  · decide

/-- C5 counterexample: the claim states an imfchan value word is accepted
only if it is exactly one character from the set r g b m l z; in fact the
two-character word rr is accepted (provenance set). -/
theorem c5_counterexample_imfchan_two_chars_accepted :
    (parse_texture2 imfchan_rr_line Texture.init).imfchan.parse = true := by
  decide

/-- C5 amended: the imfchan value word is accepted whenever it is non-empty
and contains at least one character of the set r g b m l z, and then its
first character (even one outside the set) is stored; a non-empty rejected
word is still advanced past, so the trailing filename is still recovered. -/
theorem c5_amended_imfchan_contains_any :
    (parse_texture2 imfchan_rr_line Texture.init).imfchan =
      { parse := true, value := 'r' } ∧
    (parse_texture2 imfchan_xr_line Texture.init).imfchan =
      { parse := true, value := 'x' } ∧
    (parse_texture2 imfchan_qq_line Texture.init).imfchan =
      { parse := false, value := 'm' } ∧
    (parse_texture2 imfchan_qq_line Texture.init).file.value =
      ("chrome.png".toList) := by
  refine ⟨by decide, by decide, by decide, by decide⟩

/-- C6: an Opacity line with a halo flag followed by a number sets halo true
and the dissolve factor together; a line on which the scan finds no halo flag
is decoded in its entirety as a bare dissolve factor with halo left
untouched (false on a fresh Opacity). -/
theorem c6_opacity_halo_behaviour :
    parse_opacity2 (("-halo 0.66".toList)) Opacity.init =
      { parse := true, d := 0.66, halo := true } ∧
    parse_opacity2 (("0.66".toList)) Opacity.init =
      { parse := true, d := 0.66, halo := false } ∧
    (∀ (line : Chars) (o : Opacity), hasHaloFlag line = false →
      parse_opacity line o =
        (true, { o with parse := true, d := (strtodQ line).1 }, (strtodQ line).2)) ∧
    (∀ (line : Chars) (o : Opacity), hasHaloFlag line = true →
      (parse_opacity line o).1 = true ∧ (parse_opacity line o).2.1.halo = true ∧
      (parse_opacity line o).2.1.parse = true) := by
  refine ⟨by with_unfolding_all rfl, by with_unfolding_all rfl, ?_, ?_⟩
  · intro line o h
    rw [parse_opacity, opacityLoop_of_scan_false (line.length + 1) line line
      ({ o with parse := false }) h]
    rfl
  · intro line o h
    exact opacityLoop_of_scan_true (line.length + 1) line line ({ o with parse := false }) h

/-- C6 witness: the conditional parts of the Opacity theorem hold at the
concrete lines 0.75 (no halo flag) and -halo 1 (halo flag found). -/
theorem c6_witness_halo_scan :
    (hasHaloFlag ("0.75".toList) = false ∧
     parse_opacity ("0.75".toList) Opacity.init =
       (true, { Opacity.init with parse := true, d := (strtodQ ("0.75".toList)).1 },
        (strtodQ ("0.75".toList)).2)) ∧
    (hasHaloFlag ("-halo 1".toList) = true ∧
     (parse_opacity ("-halo 1".toList) Opacity.init).2.1.halo = true) :=
  ⟨⟨by decide, c6_opacity_halo_behaviour.2.2.1 ("0.75".toList) Opacity.init (by decide)⟩,
   ⟨by decide, (c6_opacity_halo_behaviour.2.2.2 ("-halo 1".toList) Opacity.init
      (by decide)).2.1⟩⟩

/-- C7: load reports success exactly when some input line, after trimming, is
a non-comment line whose first six characters compare equal to newmtl (which
is precisely when the sentinel's name receives provenance). -/
theorem c7_load_success_iff_newmtl (stored : List Material) (lines : List Chars) :
    (load stored lines).1 = true ↔ ∃ raw ∈ lines, newmtlHit (trim raw) = true := by
  have h0 : LoadInv (seedState stored) false :=
    ⟨by simp [seedState], defaultMaterial_name_parse stored,
     defaultMaterial_name_parse stored, fun _ => ⟨defaultMaterial stored, rfl⟩⟩
  have h := foldl_processLine_inv (defaultMaterial stored) lines (seedState stored) false h0
  rw [Bool.false_or] at h
  obtain ⟨-, hfront, -, -⟩ := h
  show ((List.foldl (processLine (defaultMaterial stored)) (seedState stored) lines).mtl.headD
      Material.init).name.parse = true ↔ _
  rw [hfront]
  simp [List.any_eq_true]

/-- C7 witness: a single newmtl line makes load succeed. -/
theorem c7_witness_newmtl_line :
    (load [] [("newmtl cube".toList)]).1 = true :=
  (c7_load_success_iff_newmtl [] [("newmtl cube".toList)]).mpr
    ⟨("newmtl cube".toList), by simp, by decide⟩

/-- C8: for a template material whose Ka carries provenance true, the first
material of a fresh load seeded from that template (built through the
default-material copy made while the suppression flag is off, then restored)
has Ka provenance false with all Ka component values preserved. -/
theorem c8_default_overlay_clears_provenance (tmpl : Material)
    (_h : tmpl.Ka.parse = true) :
    ((seedState [tmpl]).mtl.headD Material.init).Ka.parse = false ∧
    ((seedState [tmpl]).mtl.headD Material.init).Ka.color.r = tmpl.Ka.color.r ∧
    ((seedState [tmpl]).mtl.headD Material.init).Ka.color.g = tmpl.Ka.color.g ∧
    ((seedState [tmpl]).mtl.headD Material.init).Ka.color.b = tmpl.Ka.color.b ∧
    ((seedState [tmpl]).mtl.headD Material.init).Ka.color_space.x = tmpl.Ka.color_space.x ∧
    ((seedState [tmpl]).mtl.headD Material.init).Ka.color_space.y = tmpl.Ka.color_space.y ∧
    ((seedState [tmpl]).mtl.headD Material.init).Ka.color_space.z = tmpl.Ka.color_space.z ∧
    ((seedState [tmpl]).mtl.headD Material.init).Ka.spectral.file = tmpl.Ka.spectral.file ∧
    ((seedState [tmpl]).mtl.headD Material.init).Ka.spectral.factor = tmpl.Ka.spectral.factor := by
  exact ⟨rfl, rfl, rfl, rfl, rfl, rfl, rfl, rfl, rfl⟩

/-- C8 witness: the default-overlay property at the concrete template with Ka
provenance true and color 1 0 0. -/
theorem c8_witness_concrete_template :
    c8_template.Ka.parse = true ∧
    (((seedState [c8_template]).mtl.headD Material.init).Ka.parse = false ∧
     ((seedState [c8_template]).mtl.headD Material.init).Ka.color.r = c8_template.Ka.color.r ∧
     ((seedState [c8_template]).mtl.headD Material.init).Ka.color.g = c8_template.Ka.color.g ∧
     ((seedState [c8_template]).mtl.headD Material.init).Ka.color.b = c8_template.Ka.color.b ∧
     ((seedState [c8_template]).mtl.headD Material.init).Ka.color_space.x =
       c8_template.Ka.color_space.x ∧
     ((seedState [c8_template]).mtl.headD Material.init).Ka.color_space.y =
       c8_template.Ka.color_space.y ∧
     ((seedState [c8_template]).mtl.headD Material.init).Ka.color_space.z =
       c8_template.Ka.color_space.z ∧
     ((seedState [c8_template]).mtl.headD Material.init).Ka.spectral.file =
       c8_template.Ka.spectral.file ∧
     ((seedState [c8_template]).mtl.headD Material.init).Ka.spectral.factor =
       c8_template.Ka.spectral.factor) :=
  ⟨rfl, c8_default_overlay_clears_provenance c8_template rfl⟩

/-- C9: the claim states trim removes exactly the surrounding whitespace.
The code contradicts it when the trimmed content has length one: the final
terminator is then written over the lone content character, so the result is
empty; content of length two or more is trimmed correctly. -/
theorem c9_trim_destroys_single_character_content :
    trim ("a".toList) = [] ∧
    trim (" b ".toList) = [] ∧
    trim (" ab ".toList) = ("ab".toList) ∧
    trim ("  x yz  ".toList) = ("x yz".toList) ∧
    trim ("   ".toList) = [] ∧
    trim ([] : Chars) = [] := by
  refine ⟨by decide, by decide, by decide, by decide, by decide, by decide⟩

/-- C10: copy-construction of a Field and of a whole Material copies the
provenance flags verbatim whatever the ambient suppression flag is, and the
loader constructor stores the caller's template intact; only copy-assignment
consults the suppression flag. -/
theorem c10_copy_construction_verbatim :
    ∀ (active : Bool) (m : Material) (v : Value ℚ),
      Material.copyConstruct active m = m ∧
      Value.copyConstruct active v = v ∧
      (mkLoad active m).mtl = [m] ∧
      (Value.assignCopy active v).parse = (active && v.parse) := by
  intro active m v
  refine ⟨rfl, rfl, rfl, ?_⟩
  cases active <;> rfl

end mtl
